import Mathlib

/-!
Verification development for the MCP tool-provider connection and resilience
layer of the common-creation-agent repository.  The definitions below are a
shallow embedding of the TypeScript sources:

  * src/mcp/error-handler.ts     (MCPErrorHandler)
  * src/mcp/schema-sanitizer.ts  (sanitizeToolSchema / sanitizeTools)
  * src/mcp/mcp-manager.ts       (MCPManager)
  * src/mcp/config-loader.ts     (MCPConfigLoader.validateServerConfig)
  * src/agent/types.ts           (AgentManagerImpl.loadSubAgentMcpTools)

External effects (the voltagent MCPConfiguration session, the filesystem,
timers) are modelled as explicit parameters; console logging is either dropped
or recorded in an explicit log list where a claim mentions it.
-/

namespace CCAgent

/-- Model of JavaScript `String.prototype.includes`: substring containment. -/
def jsIncludes (s sub : String) : Bool := decide (List.IsInfix sub.data s.data)

/-- Model of JavaScript `String.prototype.toLowerCase`: character-wise
lower-casing. -/
def jsToLower (s : String) : String := ⟨s.data.map Char.toLower⟩

/-- Model of JavaScript `String.prototype.startsWith`. -/
def jsStartsWith (s pre : String) : Bool := pre.data.isPrefixOf s.data

/-- The closed error taxonomy `MCPError['type']` from src/mcp/types. -/
inductive MCPErrorType where
  | connection
  | protocol
  | timeout
  | configuration
deriving DecidableEq, Repr

/-- Model of a JavaScript `Error` value as it flows through the MCP layer.
`type` and `retryable` are the optional `MCPError` decorations (absent on a
plain `new Error(...)`), `code` is the optional Node.js errno code, and
`stack` models the stack string (which in Node carries the message of the
error it was captured from). -/
structure Err where
  message : String
  type : Option MCPErrorType := none
  retryable : Option Bool := none
  code : Option String := none
  stack : Option String := none
deriving DecidableEq, Repr

/-- `new Error(m)`: a fresh plain error; its stack carries its own message. -/
def mkError (m : String) : Err := { message := m, stack := some m }

/-- `MCPManager.createMCPError` (src/mcp/mcp-manager.ts lines 277-292):
builds an `MCPError` with the given message, type and retryable flag, and
copies the original error's stack when one is given. -/
def createMCPError (message : String) (t : MCPErrorType)
    (originalError : Option Err := none) (retryable : Bool := false) : Err :=
  { message := message
    type := some t
    retryable := some retryable
    stack :=
      match originalError with
      | some o => o.stack
      | none => some message }

/-! ## MCPErrorHandler (src/mcp/error-handler.ts) -/

/-- The fixed allow-list of network-style substrings in
`MCPErrorHandler.isRetryable` (lines 55-65). -/
def retryableMessages : List String :=
  ["ECONNREFUSED", "ECONNRESET", "ETIMEDOUT", "ENOTFOUND", "ENETUNREACH",
   "EHOSTUNREACH", "EPIPE", "timeout", "connection"]

/-- `MCPErrorHandler.isRetryable` (lines 50-72): an explicit `retryable`
flag always wins; otherwise match the lower-cased message (or the errno
code, not lower-cased) against the allow-list. -/
def isRetryable (error : Err) : Bool :=
  match error.retryable with
  | some b => b
  | none =>
      retryableMessages.any fun msg =>
        jsIncludes (jsToLower error.message) (jsToLower msg) ||
        (match error.code with
         | some c => jsIncludes c msg
         | none => false)

/-- `MCPErrorHandler.categorizeError` (lines 120-140): keyword match on the
lower-cased message, first match wins, defaulting to `protocol`. -/
def categorizeError (error : Err) : MCPErrorType :=
  let message := jsToLower error.message
  if jsIncludes message "connection" || jsIncludes message "econnrefused" then
    .connection
  else if jsIncludes message "timeout" || jsIncludes message "etimedout" then
    .timeout
  else if jsIncludes message "config" || jsIncludes message "configuration" then
    .configuration
  else if jsIncludes message "protocol" || jsIncludes message "invalid" then
    .protocol
  else
    .protocol

/-- Observable trace of one `MCPErrorHandler.handleWithRetry` run: the final
result, how many times the operation was invoked, the delays awaited between
attempts, and the `(attempt, error)` pairs passed to the `onRetry` callback. -/
structure RetryTrace (α : Type) where
  result : Except Err α
  calls : Nat
  waits : List Nat
  onRetryCalls : List (Nat × Err)

/-- The retry loop of `handleWithRetry` (lines 22-45), unrolled from a given
attempt number with explicit fuel.  `op n` is the outcome of the n-th
invocation of the operation.  The fuel-0 case models the trailing
`throw lastError || new Error(...)` line, unreachable for positive fuel
equal to the remaining attempts. -/
def retryFromAttempt (op : Nat → Except Err α) (maxAttempts baseDelay : Nat) :
    Nat → Nat → RetryTrace α
  | 0, _ => ⟨.error (mkError "Operation failed"), 0, [], []⟩
  | fuel + 1, attempt =>
    match op attempt with
    | .ok v => ⟨.ok v, 1, [], []⟩
    | .error e =>
        if !isRetryable e || attempt = maxAttempts then
          ⟨.error e, 1, [], []⟩
        else
          let d := min (baseDelay * 2 ^ (attempt - 1)) 30000
          let rest := retryFromAttempt op maxAttempts baseDelay fuel (attempt + 1)
          ⟨rest.result, rest.calls + 1, d :: rest.waits,
           (attempt, e) :: rest.onRetryCalls⟩

/-- `MCPErrorHandler.handleWithRetry` (lines 8-48).  `optMaxAttempts` and
`optBaseDelay` model the optional options; 0 stands for absent (and for a
passed 0, which the `||` defaulting treats identically): the defaults are
`MAX_RETRY_ATTEMPTS = 3` and `BASE_RETRY_DELAY = 1000`. -/
def handleWithRetry (op : Nat → Except Err α) (optMaxAttempts optBaseDelay : Nat) :
    RetryTrace α :=
  let maxAttempts := if optMaxAttempts = 0 then 3 else optMaxAttempts
  let baseDelay := if optBaseDelay = 0 then 1000 else optBaseDelay
  retryFromAttempt op maxAttempts baseDelay maxAttempts 1

/-! ## Tool descriptors and the Schema Sanitizer (src/mcp/schema-sanitizer.ts) -/

/-- A tool's invocation handler slot as seen through the dynamic
`typeof handler !== 'function'` probe in `executeToolCall`: either an actual
callable (which may itself throw, returning `Except.error` with the thrown
message), or some truthy non-function value. -/
inductive HandlerVal (π ρ : Type) where
  | fn (f : π → Except String ρ)
  | nonFunction

/-- A discovered MCP tool descriptor (the shape consumed by the manager and
the sanitizer): name, description, optional input schema, the optional
`execute` / `handler` callables, and the origin server name.  The schema
content type `σ` and the handler parameter/result types `π`, `ρ` are
parameters of the embedding. -/
structure MCPTool (σ π ρ : Type) where
  name : String
  description : String
  inputSchema : Option σ := none
  execute : Option (HandlerVal π ρ) := none
  handler : Option (HandlerVal π ρ) := none
  server : Option String := none

/-- `sanitizeToolSchema` (src/mcp/schema-sanitizer.ts lines 22-28): shallow
copy with the `inputSchema` field deleted; every other field is kept. -/
def sanitizeToolSchema (tool : MCPTool σ π ρ) : MCPTool σ π ρ :=
  { tool with inputSchema := none }

/-- The accumulation loop of `sanitizeTools` (lines 39-60): returns the
sanitized list in input order together with the `removedCount` used for the
summary log line. -/
def sanitizeToolsGo : List (MCPTool σ π ρ) → List (MCPTool σ π ρ) × Nat
  | [] => ([], 0)
  | tool :: rest =>
      let r := sanitizeToolsGo rest
      (sanitizeToolSchema tool :: r.1,
       (if tool.inputSchema.isSome then 1 else 0) + r.2)

/-- `sanitizeTools` (lines 39-60): the sanitized tool list. -/
def sanitizeTools (tools : List (MCPTool σ π ρ)) : List (MCPTool σ π ρ) :=
  (sanitizeToolsGo tools).1

/-- The `removedCount` reported by `sanitizeTools`' summary log line. -/
def sanitizeToolsRemovedCount (tools : List (MCPTool σ π ρ)) : Nat :=
  (sanitizeToolsGo tools).2

/-! ## Descriptor validation (src/mcp/config-loader.ts) and the manager
(src/mcp/mcp-manager.ts) -/

/-- One raw descriptor entry of the `mcpServers` map
(`MCPServerConfig` in src/core/types.ts lines 143-151, with the optional
`url`/`headers` fields the manager reads off the same objects). -/
structure MCPServerConfig where
  type : Option String := none
  command : Option String := none
  args : Option (List String) := none
  env : Option (List (String × String)) := none
  url : Option String := none
  headers : Option (List (String × String)) := none
  disabled : Option Bool := none
  autoApprove : Option (List String) := none
deriving DecidableEq, Repr

/-- The descriptor document: provider name to entry, in key order. -/
structure MCPServersConfig where
  mcpServers : List (String × MCPServerConfig)
deriving DecidableEq, Repr

/-- `MCPConfigLoader.validateServerConfig` (src/mcp/config-loader.ts lines
46-72): `Except.error` carries the thrown message. -/
def validateServerConfig (serverName : String) (config : MCPServerConfig) :
    Except String Unit :=
  if (config.command.isNone || config.command = some "") &&
      (config.type.isNone || config.type = some "stdio") then
    .error ("Invalid MCP server configuration for " ++ serverName ++
      ": command is required and must be a string")
  else
    .ok ()

/-- The per-server connection parameters the manager hands to the voltagent
`MCPConfiguration` (`VoltMCPServerConfig` in src/mcp/mcp-manager.ts lines
7-16). -/
structure VoltMCPServerConfig where
  name : Option String := none
  command : Option String := none
  args : Option (List String) := none
  env : Option (List (String × String)) := none
  disabled : Option Bool := none
  type : Option String := none
  url : Option String := none
  headers : Option (List (String × String)) := none
deriving DecidableEq, Repr

/-- `MCPManager.createServerConfig` (src/mcp/mcp-manager.ts lines 81-99):
the url branch is taken only when the entry's `url` field starts with
`http://` or `https://`; it passes the entry's `type` through unchanged.
Otherwise a stdio config is built from `command`/`args`/`env`. -/
def createServerConfig (serverName : String) (config : MCPServerConfig) :
    VoltMCPServerConfig :=
  if (config.url.map fun u =>
        jsStartsWith u "http://" || jsStartsWith u "https://").getD false then
    { name := some serverName, type := config.type, url := config.url }
  else
    { name := some serverName, type := some "stdio", command := config.command,
      args := config.args, env := config.env }

/-- `MCPConnectionOptions` with the constructor defaults
(src/mcp/mcp-manager.ts lines 40-45). -/
structure MCPConnectionOptions where
  reconnectAttempts : Nat := 3
  reconnectDelay : Nat := 5000
  timeout : Nat := 30000
deriving DecidableEq, Repr

/-- The mutable fields of an `MCPManager` instance: the recorded voltagent
configuration (the "session"; `some` holds the server list it was built
over), the `servers` bookkeeping map, the `isInitialized` flag, the pending
reconnect timer keys, and the connection options fixed at construction. -/
structure ManagerState where
  mcpConfiguration : Option (List (String × VoltMCPServerConfig)) := none
  servers : List (String × VoltMCPServerConfig) := []
  isInitialized : Bool := false
  reconnectTimers : List String := []
  connectionOptions : MCPConnectionOptions := {}
deriving DecidableEq, Repr

/-- A freshly constructed `MCPManager` with default options. -/
def initialManagerState : ManagerState := {}

/-- JS `Map.prototype.set`: replace an existing key or append. -/
def mapSet (m : List (String × β)) (k : String) (v : β) : List (String × β) :=
  if m.any fun p => p.1 = k then
    m.map fun p => if p.1 = k then (k, v) else p
  else
    m ++ [(k, v)]

/-- `MCPManager.initializeServers` (lines 48-79) for an explicitly supplied
config, modelling a successful `new MCPConfiguration(...)` construction.
An empty `mcpServers` map returns early; otherwise every entry with a truthy
`disabled` flag is skipped, the rest are converted by `createServerConfig`,
recorded in `servers`, handed to the constructed configuration, and the
manager enters the initialized state.
`initServersStep` is one iteration of the `for` loop over the entries:
skip a truthy `disabled`, otherwise accumulate the converted server into the
local `servers` record and the manager's bookkeeping map. -/
def initServersStep
    (acc : List (String × VoltMCPServerConfig) ×
      List (String × VoltMCPServerConfig))
    (entry : String × MCPServerConfig) :
    List (String × VoltMCPServerConfig) × List (String × VoltMCPServerConfig) :=
  if entry.2.disabled.getD false then acc
  else
    let server := createServerConfig entry.1 entry.2
    (acc.1 ++ [(entry.1, server)], mapSet acc.2 entry.1 server)

/-- The body of `MCPManager.initializeServers` itself (see the comment on
`initServersStep`). -/
def initializeServers (config : MCPServersConfig) (st : ManagerState) :
    ManagerState :=
  if config.mcpServers.isEmpty then st
  else
    let r := config.mcpServers.foldl initServersStep ([], st.servers)
    { st with
      mcpConfiguration := some r.1
      servers := r.2
      isInitialized := true }

/-- `MCPManager.isConnected` (lines 243-253); the `if (serverName)` guard is
JS truthiness, so the empty string behaves like an absent argument. -/
def isConnected (st : ManagerState) (serverName : Option String := none) : Bool :=
  if !st.isInitialized || st.mcpConfiguration.isNone then false
  else
    match serverName with
    | some n => if n = "" then true else st.servers.any fun p => p.1 = n
    | none => true

/-- `MCPManager.disconnect` (lines 221-241).  `sessionDisconnectOk` says
whether the external `mcpConfiguration.disconnect()` call resolves. Returns
the thrown error (if any) together with the manager state afterwards: timers
are cleared first in either case; on an external failure the wrapped error
is rethrown with the configuration and bookkeeping left in place. -/
def disconnect (sessionDisconnectOk : Bool) (st : ManagerState) :
    Option Err × ManagerState :=
  let st1 := { st with reconnectTimers := [] }
  match st1.mcpConfiguration with
  | some _ =>
      if sessionDisconnectOk then
        (none, { st1 with mcpConfiguration := none, servers := [],
                          isInitialized := false })
      else
        (some (createMCPError "Failed to disconnect MCP servers" .connection
                (some (mkError "Disconnect failed"))),
         st1)
  | none =>
      (none, { st1 with servers := [], isInitialized := false })

/-- The message `ensureInitialized` (lines 271-275) throws as a plain error. -/
def notInitializedMsg : String :=
  "MCP Manager not initialized. Call initializeServers() first."

/-- `MCPManager.getAvailableTools` (lines 139-159).  `getToolsResult` is the
outcome of the external `mcpConfiguration.getTools()` call (only consulted
when a configuration exists).  A missing configuration yields an empty list;
a getTools failure is wrapped as a protocol error. -/
def getAvailableTools (getToolsResult : Except Err (List (MCPTool σ π ρ)))
    (st : ManagerState) : Except Err (List (MCPTool σ π ρ)) :=
  if !st.isInitialized then .error (mkError notInitializedMsg)
  else
    match st.mcpConfiguration with
    | none => .ok []
    | some _ =>
        match getToolsResult with
        | .ok tools => .ok (sanitizeTools tools)
        | .error e =>
            .error (createMCPError "Failed to get available tools" .protocol
              (some e))

/-- The `(tool as any).execute || (tool as any).handler` resolution in
`executeToolCall` (line 203). -/
def resolveHandler (tool : MCPTool σ π ρ) : Option (HandlerVal π ρ) :=
  tool.execute.orElse fun _ => tool.handler

/-- `MCPManager.executeToolCall` (lines 192-219): after the initialization
guard, the body resolves the tool by exact name from the sanitized discovery
list, probes its handler, invokes it, and wraps any failure of the body as a
protocol error whose message names the tool. -/
def executeToolCall (getToolsResult : Except Err (List (MCPTool σ π ρ)))
    (st : ManagerState) (toolName : String) (params : π) : Except Err ρ :=
  if !st.isInitialized then .error (mkError notInitializedMsg)
  else
    let body : Except Err ρ :=
      match getAvailableTools getToolsResult st with
      | .error e => .error e
      | .ok tools =>
          match tools.find? fun t => t.name = toolName with
          | none => .error (mkError ("Tool " ++ toolName ++ " not found"))
          | some tool =>
              match resolveHandler tool with
              | none =>
                  .error (mkError ("Tool " ++ toolName ++ " does not have a handler"))
              | some .nonFunction =>
                  .error (mkError ("Tool " ++ toolName ++ " does not have a handler"))
              | some (.fn f) =>
                  match f params with
                  | .ok v => .ok v
                  | .error m => .error (mkError m)
    match body with
    | .ok v => .ok v
    | .error e =>
        .error (createMCPError ("Failed to execute tool call " ++ toolName)
          .protocol (some e))

/-- Observable trace of one `connectWithRetry` run: the final outcome, how
many times the external `getTools` was invoked and the delays awaited
between attempts. -/
structure ConnectTrace (σ π ρ : Type) where
  result : Except Err (List (MCPTool σ π ρ))
  getToolsCalls : Nat
  waits : List Nat

/-- The attempt loop of `MCPManager.connectWithRetry` (lines 105-135) with
explicit fuel; `getToolsAt n` is the outcome of the `getTools` call made on
attempt `n`.  When no configuration exists the body throws (and retries on)
a plain error without reaching `getTools`.  The fuel-0 case models the
unreachable `return []` after the loop. -/
def connectGo (getToolsAt : Nat → Except Err (List (MCPTool σ π ρ)))
    (hasConfig : Bool) (attempts delay : Nat) :
    Nat → Nat → ConnectTrace σ π ρ
  | 0, _ => ⟨.ok [], 0, []⟩
  | fuel + 1, attempt =>
    let attemptResult : Except Err (List (MCPTool σ π ρ)) :=
      if !hasConfig then .error (mkError "MCP configuration not initialized")
      else getToolsAt attempt
    let callsHere := if hasConfig then 1 else 0
    match attemptResult with
    | .ok tools => ⟨.ok tools, callsHere, []⟩
    | .error e =>
        if attempt < attempts then
          let rest := connectGo getToolsAt hasConfig attempts delay fuel (attempt + 1)
          ⟨rest.result, callsHere + rest.getToolsCalls, delay :: rest.waits⟩
        else
          ⟨.error (createMCPError "Failed to connect after multiple attempts"
             .connection (some e) true),
           callsHere, []⟩

/-- `MCPManager.connectWithRetry` (lines 101-137): attempt count and delay
come from the configured connection options through `||`-defaulting (3
attempts, 5000ms); the wait between attempts is that fixed delay. -/
def connectWithRetry (getToolsAt : Nat → Except Err (List (MCPTool σ π ρ)))
    (st : ManagerState) : ConnectTrace σ π ρ :=
  let attempts := if st.connectionOptions.reconnectAttempts = 0 then 3
                  else st.connectionOptions.reconnectAttempts
  let delay := if st.connectionOptions.reconnectDelay = 0 then 5000
               else st.connectionOptions.reconnectDelay
  connectGo getToolsAt st.mcpConfiguration.isSome attempts delay attempts 1

/-- Observable trace of one `reconnect` call. -/
structure ReconnectTrace (σ π ρ : Type) where
  thrown : Option Err
  disconnectedFirst : Bool
  connect : Option (ConnectTrace σ π ρ)

/-- `MCPManager.reconnect` (lines 255-269): when initialized with a live
configuration, the existing session's `disconnect()` is awaited first
(`sessionDisconnectOk` gives its outcome); then `connectWithRetry` re-runs
tool discovery.  Any failure is wrapped as a retryable connection error. -/
def reconnect (sessionDisconnectOk : Bool)
    (getToolsAt : Nat → Except Err (List (MCPTool σ π ρ)))
    (st : ManagerState) : ReconnectTrace σ π ρ :=
  let needDisconnect := st.isInitialized && st.mcpConfiguration.isSome
  if needDisconnect && !sessionDisconnectOk then
    ⟨some (createMCPError "Failed to reconnect to MCP servers" .connection
       (some (mkError "Disconnect failed")) true),
     true, none⟩
  else
    let ct := connectWithRetry getToolsAt st
    match ct.result with
    | .ok _ => ⟨none, needDisconnect, some ct⟩
    | .error e =>
        ⟨some (createMCPError "Failed to reconnect to MCP servers" .connection
           (some e) true),
         needDisconnect, some ct⟩

/-! ## Delegate (sub-agent) tool loading (src/agent/types.ts lines 613-665) -/

/-- Log levels of the logger calls recorded by the loader model. -/
inductive LogLevel where
  | info
  | warn
  | debug
deriving DecidableEq, Repr

/-- The external world as seen by `loadSubAgentMcpTools` for one delegate:
whether `fs.access` finds the descriptor file, what `fs.readFile` returns,
what `JSON.parse` yields on that content, the outcome of the throwaway
manager's external `getTools` call, and whether its `disconnect` resolves. -/
structure SubAgentEnv (σ π ρ : Type) where
  fileExists : Bool
  readResult : Except Err String
  parseResult : String → Except Err MCPServersConfig
  getToolsResult : Except Err (List (MCPTool σ π ρ))
  sessionDisconnectOk : Bool

/-- The body of the `try` block of `loadSubAgentMcpTools`:
path containment check, file lookup, read, parse, then a dedicated
use-once manager (construct, initialize, read tools, disconnect).
`Except.error` is a throw reaching the outer catch. -/
def loadSubAgentMcpToolsAux (env : SubAgentEnv σ π ρ)
    (mcpFile subAgentId : String) :
    Except Err (List (MCPTool σ π ρ) × List (LogLevel × String)) :=
  if !(jsStartsWith mcpFile "config/" || jsStartsWith mcpFile "./config/") then
    .ok ([], [(.warn, "Sub-agent " ++ subAgentId ++ " mcpFile " ++ mcpFile ++
      " is outside config/ directory. Skipping for security.")])
  else if !env.fileExists then
    .ok ([], [(.warn, "MCP configuration file not found for sub-agent " ++
      subAgentId)])
  else
    match env.readResult with
    | .error e => .error e
    | .ok content =>
        match env.parseResult content with
        | .error e => .error e
        | .ok mcpConfig =>
            let mgr := initializeServers mcpConfig initialManagerState
            match getAvailableTools env.getToolsResult mgr with
            | .error e => .error e
            | .ok tools =>
                let disconnectLog :=
                  if (disconnect env.sessionDisconnectOk mgr).1.isSome then
                    [((LogLevel.warn : LogLevel),
                      "Failed to disconnect MCP manager for sub-agent " ++
                      subAgentId)]
                  else []
                .ok (tools, disconnectLog)

/-- `AgentManagerImpl.loadSubAgentMcpTools` (src/agent/types.ts lines
613-665): the outer catch degrades every thrown failure to zero tools plus
a warning, so the loader itself never throws. -/
def loadSubAgentMcpTools (env : SubAgentEnv σ π ρ)
    (mcpFile subAgentId : String) :
    List (MCPTool σ π ρ) × List (LogLevel × String) :=
  match loadSubAgentMcpToolsAux env mcpFile subAgentId with
  | .ok r => r
  | .error e =>
      ([], [(.warn, "Failed to load MCP configuration for sub-agent " ++
        subAgentId ++ ": " ++ e.message ++ ". Continuing without MCP tools.")])

/-! ## Helper lemmas -/

theorem sanitizeTools_eq_map (tools : List (MCPTool σ π ρ)) :
    sanitizeTools tools = tools.map sanitizeToolSchema := by
  induction tools with
  | nil => rfl
  | cons t ts ih =>
      simp only [sanitizeTools, sanitizeToolsGo, List.map_cons]
      exact congrArg _ ih

theorem jsIncludes_append_right (pre s : String) :
    jsIncludes (pre ++ s) s = true := by
  unfold jsIncludes
  rw [decide_eq_true_iff]
  exact ⟨pre.data, [], by simp [String.data_append]⟩

theorem find?_sanitizeTools (tools : List (MCPTool σ π ρ)) (toolName : String) :
    (sanitizeTools tools).find? (fun t => t.name = toolName) =
      (tools.find? fun t => t.name = toolName).map sanitizeToolSchema := by
  rw [sanitizeTools_eq_map, List.find?_map]
  rfl

theorem resolveHandler_sanitizeToolSchema (t : MCPTool σ π ρ) :
    resolveHandler (sanitizeToolSchema t) = resolveHandler t := rfl

/-! ## Claims -/

/-- C4: for every list of tool descriptors, sanitization returns for each
tool a shallow copy with the `inputSchema` field removed regardless of
schema content, preserves `name` and `description` (and the handler and
server fields), never throws (the model is a total function), and does not
mutate the input tools (the model is pure; the input list is unchanged). -/
theorem C4_sanitize_shallow_copy {σ π ρ : Type}
    (t : MCPTool σ π ρ) (tools : List (MCPTool σ π ρ)) :
    sanitizeToolSchema t =
      { name := t.name, description := t.description, inputSchema := none,
        execute := t.execute, handler := t.handler, server := t.server } ∧
    (sanitizeToolSchema t).inputSchema = none ∧
    (sanitizeToolSchema t).name = t.name ∧
    (sanitizeToolSchema t).description = t.description ∧
    sanitizeTools tools = tools.map sanitizeToolSchema :=
  ⟨rfl, rfl, rfl, rfl, sanitizeTools_eq_map tools⟩

/-- C10: `sanitizeTools` returns a list of exactly the same length with the
tools in the same order as the input (it is the element-wise map of
`sanitizeToolSchema`), whether or not a tool carries an input schema. -/
theorem C10_sanitizeTools_length_order {σ π ρ : Type}
    (tools : List (MCPTool σ π ρ)) :
    (sanitizeTools tools).length = tools.length ∧
    sanitizeTools tools = tools.map sanitizeToolSchema := by
  refine ⟨?_, sanitizeTools_eq_map tools⟩
  rw [sanitizeTools_eq_map]
  exact List.length_map tools sanitizeToolSchema

/-- C3: classification matches lower-cased message keywords in precedence
order connection, timeout, configuration, protocol, defaulting to protocol;
`retryable` is taken from an explicit flag when present (it always wins),
otherwise from the fixed substring allow-list; in particular a plain
`ECONNREFUSED` error classifies as connection/retryable and a plain
`Invalid configuration` error as configuration/non-retryable. -/
theorem C3_classification :
    (∀ (e : Err) (b : Bool), e.retryable = some b → isRetryable e = b) ∧
    categorizeError (mkError "ECONNREFUSED") = .connection ∧
    isRetryable (mkError "ECONNREFUSED") = true ∧
    categorizeError (mkError "Invalid configuration") = .configuration ∧
    isRetryable (mkError "Invalid configuration") = false ∧
    (∀ e : Err,
      (jsIncludes (jsToLower e.message) "connection" ||
        jsIncludes (jsToLower e.message) "econnrefused") = true →
      categorizeError e = .connection) ∧
    (∀ e : Err,
      (jsIncludes (jsToLower e.message) "connection" ||
        jsIncludes (jsToLower e.message) "econnrefused") = false →
      (jsIncludes (jsToLower e.message) "timeout" ||
        jsIncludes (jsToLower e.message) "etimedout") = true →
      categorizeError e = .timeout) ∧
    (∀ e : Err,
      (jsIncludes (jsToLower e.message) "connection" ||
        jsIncludes (jsToLower e.message) "econnrefused") = false →
      (jsIncludes (jsToLower e.message) "timeout" ||
        jsIncludes (jsToLower e.message) "etimedout") = false →
      (jsIncludes (jsToLower e.message) "config" ||
        jsIncludes (jsToLower e.message) "configuration") = true →
      categorizeError e = .configuration) ∧
    (∀ e : Err,
      (jsIncludes (jsToLower e.message) "connection" ||
        jsIncludes (jsToLower e.message) "econnrefused") = false →
      (jsIncludes (jsToLower e.message) "timeout" ||
        jsIncludes (jsToLower e.message) "etimedout") = false →
      (jsIncludes (jsToLower e.message) "config" ||
        jsIncludes (jsToLower e.message) "configuration") = false →
      categorizeError e = .protocol) := by
  refine ⟨?_, by decide, by decide, by decide, by decide, ?_, ?_, ?_, ?_⟩
  · intro e b h
    simp [isRetryable, h]
  · intro e h
    simp [categorizeError, h]
  · intro e h1 h2
    simp [categorizeError, h1, h2]
  · intro e h1 h2 h3
    simp [categorizeError, h1, h2, h3]
  · intro e h1 h2 h3
    simp only [categorizeError, h1, h2, h3, Bool.false_eq_true, if_false]
    split <;> rfl

/-- Witness for C3: the explicit retryable flag wins at a concrete input. -/
theorem C3_classification_witness :
    isRetryable { message := "Invalid configuration", retryable := some true } =
      true :=
  C3_classification.1 _ true rfl

/-- C2: `withRetry` on an operation failing twice with a retryable error and
succeeding on the third call returns the success value, invokes the
operation exactly 3 times (with the default max of 3 attempts), waits
`min(baseDelay * 2 ^ (attempt - 1), 30000)` between retries and invokes the
retry callback with the attempt number and error; a non-retryable first
failure is rethrown after exactly one invocation, with no wait and no
callback, for any options. -/
theorem C2_handleWithRetry {α : Type} :
    (∀ (e1 e2 : Err) (v : α) (base : Nat),
      isRetryable e1 = true → isRetryable e2 = true → base ≠ 0 →
      handleWithRetry
        (fun n => if n = 1 then .error e1 else if n = 2 then .error e2
                  else .ok v) 0 base =
        ⟨.ok v, 3,
         [min (base * 2 ^ 0) 30000, min (base * 2 ^ 1) 30000],
         [(1, e1), (2, e2)]⟩) ∧
    (∀ (e : Err) (op : Nat → Except Err α) (optMax optBase : Nat),
      isRetryable e = false → op 1 = .error e →
      handleWithRetry op optMax optBase = ⟨.error e, 1, [], []⟩) := by
  constructor
  · intro e1 e2 v base h1 h2 hbase
    simp [handleWithRetry, retryFromAttempt, h1, h2, if_neg hbase]
  · intro e op optMax optBase hret hop
    have hm : (if optMax = 0 then 3 else optMax) ≠ 0 := by
      by_cases h : optMax = 0 <;> simp [h]
    obtain ⟨k, hk⟩ := Nat.exists_eq_succ_of_ne_zero hm
    simp only [handleWithRetry, hk, retryFromAttempt, hop, hret]
    simp

/-- Witness for C2: a concrete run with two retryable `ECONNREFUSED`
failures, base delay 100, succeeding with 42 on the third call. -/
theorem C2_handleWithRetry_witness :
    handleWithRetry
      (fun n => if n = 1 then .error (mkError "ECONNREFUSED")
                else if n = 2 then .error (mkError "ECONNREFUSED")
                else .ok (42 : Nat)) 0 100 =
      ⟨.ok 42, 3, [min (100 * 2 ^ 0) 30000, min (100 * 2 ^ 1) 30000],
       [(1, mkError "ECONNREFUSED"), (2, mkError "ECONNREFUSED")]⟩ :=
  C2_handleWithRetry.1 (mkError "ECONNREFUSED") (mkError "ECONNREFUSED") 42 100
    (by decide) (by decide) (by decide)

theorem foldl_initServersStep_all_disabled
    (l : List (String × MCPServerConfig))
    (hdis : ∀ p ∈ l, p.2.disabled = some true) :
    ∀ acc, l.foldl initServersStep acc = acc := by
  induction l with
  | nil => intro acc; rfl
  | cons p ps ih =>
      intro acc
      have hp : p.2.disabled = some true := hdis p (by simp)
      have hps : ∀ q ∈ ps, q.2.disabled = some true := fun q hq =>
        hdis q (by simp [hq])
      simp [List.foldl_cons, initServersStep, hp, ih hps]

/-- A one-entry, all-disabled descriptor map. -/
def cfgAllDisabled : MCPServersConfig :=
  ⟨[("a", { command := some "x", disabled := some true })]⟩

/-- C1 counterexample: on the map with the single entry
`a: (command "x", disabled true)` — every entry disabled —
`initializeServers` records a session built over the empty provider set and
enters the initialized state, so `isConnected()` reports true, not false as
the claim states. -/
theorem C1_counterexample :
    (initializeServers cfgAllDisabled initialManagerState).mcpConfiguration =
      some [] ∧
    (initializeServers cfgAllDisabled initialManagerState).isInitialized =
      true ∧
    isConnected (initializeServers cfgAllDisabled initialManagerState) none =
      true :=
  ⟨rfl, rfl, rfl⟩

/-- C1 (amended): only the empty descriptor map short-circuits without a
session; for a non-empty map in which every entry is disabled,
`initializeServers` completes, constructs a session over the empty enabled
set, enters the initialized state, and `isConnected()` reports true
afterwards. -/
theorem C1_all_disabled_amended (config : MCPServersConfig) (st : ManagerState)
    (hne : config.mcpServers ≠ [])
    (hdis : ∀ p ∈ config.mcpServers, p.2.disabled = some true) :
    (initializeServers config st).mcpConfiguration = some [] ∧
    (initializeServers config st).isInitialized = true ∧
    isConnected (initializeServers config st) none = true ∧
    (∀ cfg0 : MCPServersConfig, cfg0.mcpServers = [] →
      initializeServers cfg0 st = st) ∧
    isConnected initialManagerState none = false := by
  have hemp : config.mcpServers.isEmpty = false := by
    cases h : config.mcpServers with
    | nil => exact absurd h hne
    | cons a l => rfl
  have hfold := foldl_initServersStep_all_disabled config.mcpServers hdis
    ([], st.servers)
  refine ⟨?_, ?_, ?_, ?_, rfl⟩
  · simp [initializeServers, hemp, hfold]
  · simp [initializeServers, hemp]
  · simp [isConnected, initializeServers, hemp, hfold]
  · intro cfg0 h0
    simp [initializeServers, h0]

/-- Witness for C1 (amended) at the concrete all-disabled map. -/
theorem C1_all_disabled_amended_witness :
    (initializeServers cfgAllDisabled initialManagerState).mcpConfiguration =
      some [] ∧
    (initializeServers cfgAllDisabled initialManagerState).isInitialized =
      true ∧
    isConnected (initializeServers cfgAllDisabled initialManagerState) none =
      true ∧
    (∀ cfg0 : MCPServersConfig, cfg0.mcpServers = [] →
      initializeServers cfg0 initialManagerState = initialManagerState) ∧
    isConnected initialManagerState none = false :=
  C1_all_disabled_amended cfgAllDisabled initialManagerState (by decide)
    (by decide)

/-- C9: `disconnect` is idempotent-safe: called on a never-initialized
manager it does not throw and leaves `isConnected()` false for any behaviour
of the external session teardown; a second call after a successful one never
throws; every call (throwing or not) clears the pending reconnect timers
first; and a successful call clears the provider bookkeeping and makes
`isConnected()` report false. -/
theorem C9_disconnect_idempotent :
    (∀ ok : Bool, (disconnect ok initialManagerState).1 = none ∧
      isConnected (disconnect ok initialManagerState).2 none = false) ∧
    (∀ (st : ManagerState) (ok1 ok2 : Bool),
      (disconnect ok1 st).1 = none →
      (disconnect ok2 (disconnect ok1 st).2).1 = none) ∧
    (∀ (st : ManagerState) (ok : Bool),
      (disconnect ok st).2.reconnectTimers = []) ∧
    (∀ (st : ManagerState) (ok : Bool),
      (disconnect ok st).1 = none →
      (disconnect ok st).2.servers = [] ∧
      (disconnect ok st).2.isInitialized = false ∧
      isConnected (disconnect ok st).2 none = false) := by
  refine ⟨fun ok => ⟨rfl, rfl⟩, ?_, ?_, ?_⟩
  · intro st ok1 ok2 h
    cases hc : st.mcpConfiguration <;> cases ok1 <;>
      simp [disconnect, hc] at h ⊢
  · intro st ok
    cases hc : st.mcpConfiguration <;> cases ok <;> simp [disconnect, hc]
  · intro st ok h
    cases hc : st.mcpConfiguration <;> cases ok <;>
      simp [disconnect, isConnected, hc] at h ⊢

/-- A manager initialized over one enabled provider, for the witnesses. -/
def stOneServer : ManagerState :=
  initializeServers ⟨[("s", { command := some "cmd" })]⟩ initialManagerState

/-- Witness for C9 at a concrete initialized manager. -/
theorem C9_disconnect_idempotent_witness :
    (disconnect true stOneServer).2.servers = [] ∧
    (disconnect true stOneServer).2.isInitialized = false ∧
    isConnected (disconnect true stOneServer).2 none = false :=
  C9_disconnect_idempotent.2.2.2 stOneServer true rfl

/-- C5: on an initialized manager, `executeToolCall` with a name absent from
the current discovery list raises (never silently returns a value) the
wrapped protocol error whose message contains the requested name and whose
preserved stack carries the unresolved-tool message; with a tool present but
exposing no invocable handler it raises the handler-missing error; otherwise
it invokes the resolved handler with the given parameters and returns the
handler's result unchanged. -/
theorem C5_executeToolCall {σ π ρ : Type}
    (tools : List (MCPTool σ π ρ)) (st : ManagerState) (toolName : String)
    (params : π)
    (hinit : st.isInitialized = true)
    (hcfg : st.mcpConfiguration.isSome = true) :
    ((tools.find? fun t => t.name = toolName) = none →
      executeToolCall (.ok tools) st toolName params =
        .error (createMCPError ("Failed to execute tool call " ++ toolName)
          .protocol (some (mkError ("Tool " ++ toolName ++ " not found")))) ∧
      jsIncludes ("Failed to execute tool call " ++ toolName) toolName =
        true) ∧
    (∀ tool : MCPTool σ π ρ,
      (tools.find? fun t => t.name = toolName) = some tool →
      (resolveHandler tool = none ∨
        resolveHandler tool = some .nonFunction) →
      executeToolCall (.ok tools) st toolName params =
        .error (createMCPError ("Failed to execute tool call " ++ toolName)
          .protocol
          (some (mkError ("Tool " ++ toolName ++
            " does not have a handler"))))) ∧
    (∀ (tool : MCPTool σ π ρ) (f : π → Except String ρ) (v : ρ),
      (tools.find? fun t => t.name = toolName) = some tool →
      resolveHandler tool = some (.fn f) → f params = .ok v →
      executeToolCall (.ok tools) st toolName params = .ok v) := by
  obtain ⟨c, hc⟩ := Option.isSome_iff_exists.mp hcfg
  refine ⟨?_, ?_, ?_⟩
  · intro hfind
    refine ⟨?_, jsIncludes_append_right "Failed to execute tool call " toolName⟩
    simp [executeToolCall, getAvailableTools, hinit, hc, find?_sanitizeTools,
      hfind]
  · intro tool hfind hres
    rcases hres with hres | hres <;>
      simp [executeToolCall, getAvailableTools, hinit, hc, find?_sanitizeTools,
        hfind, resolveHandler_sanitizeToolSchema, hres]
  · intro tool f v hfind hres hf
    simp [executeToolCall, getAvailableTools, hinit, hc, find?_sanitizeTools,
      hfind, resolveHandler_sanitizeToolSchema, hres, hf]

/-- Witness for C5: on a concrete initialized manager whose discovery list
is empty, calling the absent tool `mytool` yields exactly the wrapped
unresolved-tool error, whose message contains the requested name. -/
theorem C5_executeToolCall_witness :
    executeToolCall (σ := Unit) (π := Unit) (ρ := Unit) (.ok []) stOneServer
        "mytool" () =
      .error (createMCPError ("Failed to execute tool call " ++ "mytool")
        .protocol (some (mkError ("Tool " ++ "mytool" ++ " not found")))) ∧
    jsIncludes ("Failed to execute tool call " ++ "mytool") "mytool" = true :=
  (C5_executeToolCall (σ := Unit) (π := Unit) (ρ := Unit) [] stOneServer
    "mytool" () rfl rfl).1 rfl

/-- C6 (code-bug evaluation): the repository's own tests
(src/mcp/mcp-manager.test.ts, `should detect streamable-http server type`
and `should initialize servers from config`) expect an entry whose
`command` is an http(s) URL to yield a network transport with the type
chosen by the "stream" path heuristic; `createServerConfig` instead looks
only at the `url` field, so that entry validates fine yet is built as a
stdio transport carrying the URL as its command, and even a `url`-bearing
entry just passes the entry's `type` through (no heuristic). -/
theorem C6_createServerConfig_eval :
    createServerConfig "streamServer"
        { command := some "https://example.com/stream/mcp" } =
      { name := some "streamServer", type := some "stdio",
        command := some "https://example.com/stream/mcp" } ∧
    (createServerConfig "streamServer"
        { command := some "https://example.com/stream/mcp" }).url = none ∧
    validateServerConfig "streamServer"
        { command := some "https://example.com/stream/mcp" } = .ok () ∧
    (createServerConfig "httpServer"
        { url := some "https://example.com/stream/mcp" }).type = none :=
  ⟨rfl, rfl, rfl, rfl⟩

theorem connectGo_succ {σ π ρ : Type}
    (getToolsAt : Nat → Except Err (List (MCPTool σ π ρ)))
    (attempts delay fuel attempt : Nat) :
    connectGo getToolsAt true attempts delay (fuel + 1) attempt =
      (match getToolsAt attempt with
       | .ok tools => ⟨.ok tools, 1, []⟩
       | .error e =>
           if attempt < attempts then
             let rest := connectGo getToolsAt true attempts delay fuel
               (attempt + 1)
             ⟨rest.result, 1 + rest.getToolsCalls, delay :: rest.waits⟩
           else
             ⟨.error (createMCPError "Failed to connect after multiple attempts"
                .connection (some e) true), 1, []⟩) := rfl

theorem connectGo_fail {σ π ρ : Type} (errAt : Nat → Err)
    (attempts delay : Nat) :
    ∀ fuel attempt, fuel ≠ 0 → attempt + fuel = attempts + 1 →
      connectGo (σ := σ) (π := π) (ρ := ρ) (fun n => .error (errAt n)) true
          attempts delay fuel attempt =
        ⟨.error (createMCPError "Failed to connect after multiple attempts"
           .connection (some (errAt attempts)) true),
         fuel, List.replicate (fuel - 1) delay⟩ := by
  intro fuel
  induction fuel with
  | zero => intro attempt h0 _; exact absurd rfl h0
  | succ k ih =>
      intro attempt _ hsum
      rw [connectGo_succ]
      cases k with
      | zero =>
          have ha : attempt = attempts := by omega
          subst ha
          simp
      | succ m =>
          have hlt : attempt < attempts := by omega
          have hrest := ih (attempt + 1) (by omega) (by omega)
          simp only [hrest, if_pos hlt]
          simp [List.replicate_succ, ConnectTrace.mk.injEq]
          omega

/-- The always-failing external `getTools` behaviour used in the C7
scenario. -/
def failingGetTools : Nat → Except Err (List (MCPTool Unit Unit Unit)) :=
  fun _ => .error (mkError "connect refused")

/-- C7 counterexample: on a manager initialized with the default connection
options, `reconnect` against an always-failing provider waits the fixed
configured delay 5000ms before each of the two retries; the second wait
(5000ms) lies strictly below 80% of the exponential value
`5000 * 2 ^ 1` the claim asserts for it, so the claimed jittered
exponential backoff band does not describe this routine. -/
theorem C7_counterexample :
    ((reconnect true failingGetTools stOneServer).connect.map
        fun ct => ct.waits) = some [5000, 5000] ∧
    5000 < 8 * (5000 * 2 ^ 1) / 10 :=
  ⟨rfl, by decide⟩

/-- C7 (amended): `reconnect` on an initialized manager disconnects the
existing session first, re-runs tool discovery through the retry routine
with the configured attempt count `A` and delay `D` (defaults 3 / 5000ms),
waiting the fixed delay `D` — not an exponential, jittered backoff —
between attempts; exhausting all attempts raises an error classified as
connection with retryable true. -/
theorem C7_reconnect_fixed_delay {σ π ρ : Type} (st : ManagerState)
    (errAt : Nat → Err) (A D : Nat)
    (hinit : st.isInitialized = true)
    (hcfg : st.mcpConfiguration.isSome = true)
    (hA : st.connectionOptions.reconnectAttempts = A) (hA0 : A ≠ 0)
    (hD : st.connectionOptions.reconnectDelay = D) (hD0 : D ≠ 0) :
    (∀ getToolsAt : Nat → Except Err (List (MCPTool σ π ρ)),
      (reconnect true getToolsAt st).disconnectedFirst = true ∧
      (reconnect true getToolsAt st).connect =
        some (connectWithRetry getToolsAt st)) ∧
    (reconnect (σ := σ) (π := π) (ρ := ρ) true (fun n => .error (errAt n))
        st).connect =
      some ⟨.error (createMCPError "Failed to connect after multiple attempts"
              .connection (some (errAt A)) true),
            A, List.replicate (A - 1) D⟩ ∧
    (∃ e : Err,
      (reconnect (σ := σ) (π := π) (ρ := ρ) true (fun n => .error (errAt n))
          st).thrown = some e ∧
      e.type = some .connection ∧ e.retryable = some true) := by
  have hconn :
      connectWithRetry (σ := σ) (π := π) (ρ := ρ) (fun n => .error (errAt n))
          st =
        ⟨.error (createMCPError "Failed to connect after multiple attempts"
           .connection (some (errAt A)) true),
         A, List.replicate (A - 1) D⟩ := by
    have hgo := connectGo_fail (σ := σ) (π := π) (ρ := ρ) errAt A D A 1 hA0
      (by omega)
    simp only [connectWithRetry, hA, hD, if_neg hA0, if_neg hD0, hcfg]
    exact hgo
  refine ⟨?_, ?_, ?_⟩
  · intro getToolsAt
    cases hr : (connectWithRetry getToolsAt st).result <;>
      simp [reconnect, hinit, hcfg, hr]
  · simp [reconnect, hinit, hcfg, hconn]
  · refine ⟨createMCPError "Failed to reconnect to MCP servers" .connection
      (some (createMCPError "Failed to connect after multiple attempts"
        .connection (some (errAt A)) true)) true, ?_, rfl, rfl⟩
    simp [reconnect, hinit, hcfg, hconn]

/-- Witness for C7 (amended) at the concrete initialized manager with the
default options and an always-failing provider. -/
theorem C7_reconnect_fixed_delay_witness :
    (reconnect true failingGetTools stOneServer).connect =
      some ⟨.error (createMCPError "Failed to connect after multiple attempts"
              .connection (some (mkError "connect refused")) true),
            3, List.replicate 2 5000⟩ := by
  have h := (C7_reconnect_fixed_delay (σ := Unit) (π := Unit) (ρ := Unit)
    stOneServer (fun _ => mkError "connect refused") 3 5000 rfl rfl rfl
    (by decide) rfl (by decide)).2.1
  simpa using h

/-- C8: for every delegate and every behaviour of the filesystem and of the
throwaway manager, a descriptor path escaping the configuration root is a
security skip yielding zero tools plus a warning; a missing file yields zero
tools plus a warning; and any thrown failure while reading, parsing or
loading degrades (via the outer catch) to zero tools plus a warning — the
loader is a total function and never propagates the failure to startup. -/
theorem C8_subagent_tool_loading {σ π ρ : Type} (env : SubAgentEnv σ π ρ)
    (mcpFile subAgentId : String) :
    ((jsStartsWith mcpFile "config/" || jsStartsWith mcpFile "./config/") =
        false →
      loadSubAgentMcpTools env mcpFile subAgentId =
        ([], [(.warn, "Sub-agent " ++ subAgentId ++ " mcpFile " ++ mcpFile ++
          " is outside config/ directory. Skipping for security.")])) ∧
    ((jsStartsWith mcpFile "config/" || jsStartsWith mcpFile "./config/") =
        true →
      env.fileExists = false →
      loadSubAgentMcpTools env mcpFile subAgentId =
        ([], [(.warn, "MCP configuration file not found for sub-agent " ++
          subAgentId)])) ∧
    (∀ e : Err, loadSubAgentMcpToolsAux env mcpFile subAgentId = .error e →
      loadSubAgentMcpTools env mcpFile subAgentId =
        ([], [(.warn, "Failed to load MCP configuration for sub-agent " ++
          subAgentId ++ ": " ++ e.message ++
          ". Continuing without MCP tools.")])) := by
  refine ⟨?_, ?_, ?_⟩
  · intro h
    simp [loadSubAgentMcpTools, loadSubAgentMcpToolsAux, h]
  · intro h hx
    simp [loadSubAgentMcpTools, loadSubAgentMcpToolsAux, h, hx]
  · intro e h
    simp [loadSubAgentMcpTools, h]

/-- Witness for C8: a delegate whose descriptor path escapes the
configuration root is skipped with zero tools and the security warning. -/
theorem C8_subagent_tool_loading_witness :
    loadSubAgentMcpTools (σ := Unit) (π := Unit) (ρ := Unit)
        ⟨true, .ok "", fun _ => .ok ⟨[]⟩, .ok [], true⟩
        "../secrets/mcp.json" "delegate1" =
      ([], [(.warn, "Sub-agent " ++ "delegate1" ++ " mcpFile " ++
        "../secrets/mcp.json" ++
        " is outside config/ directory. Skipping for security.")]) :=
  (C8_subagent_tool_loading ⟨true, .ok "", fun _ => .ok ⟨[]⟩, .ok [], true⟩
    "../secrets/mcp.json" "delegate1").1 (by decide)

end CCAgent
